import Mathlib

/-!
AirControlX: aircraft phases, speed radar and runway pool.

A shallow embedding of `practice3.cpp`: the aircraft record and its phase
sequence (`flight_simulation`), the speed radar (`radar_monitor`, `issue_avn`),
the runway pool (`request_runway`, `release_runway`) and the roster set up by
`main`, followed by theorems about them.

Conventions of the embedding.
* A C++ `int` is an `Int`; every value the program computes stays far inside
  the 32-bit range (speeds below 1000, fines up to 5000).
* A thread is identified by a natural number. What a thread reads from
  variables written by other threads (`simulation_running`, the runway flags
  between two polls) and from `rand()` is supplied by a `World`.
* A speed-limit table is the list of its five rows. A subscript inside the
  table reads the row; a subscript past its end reads whatever the memory
  there holds, which is the parameter `past`.
-/

namespace AirControlX

/-! ## Enumerations and constants -/

/-- The enumeration `Phase` of the source, in declaration order. -/
inductive Phase where
  | HOLDING | APPROACH | LANDING | TAXI | GATE | TAKEOFF | CLIMB | CRUISE
  deriving DecidableEq, Repr

/-- The numeric value of an enumerator of `Phase` (HOLDING = 0, ..., CRUISE = 7). -/
def Phase.toNat : Phase → Nat
  | .HOLDING => 0
  | .APPROACH => 1
  | .LANDING => 2
  | .TAXI => 3
  | .GATE => 4
  | .TAKEOFF => 5
  | .CLIMB => 6
  | .CRUISE => 7

/-- The enumeration `FlightType` of the source. -/
inductive FlightType where
  | ARRIVAL | DEPARTURE
  deriving DecidableEq, Repr

/-- The enumeration `AircraftType` of the source. -/
inductive AircraftType where
  | COMMERCIAL | CARGO | EMERGENCY
  deriving DecidableEq, Repr

open Phase FlightType AircraftType

def FINE_COMMERCIAL : Int := 5000

def FINE_CARGO : Int := 3000

def FINE_EMERGENCY : Int := 1000

/-- The array `PHASE_NAMES`, read at the numeric value of a phase. -/
def PHASE_NAMES : Phase → String
  | .HOLDING => "Holding"
  | .APPROACH => "Approach"
  | .LANDING => "Landing"
  | .TAXI => "Taxi"
  | .GATE => "Gate"
  | .TAKEOFF => "Takeoff"
  | .CLIMB => "Climb"
  | .CRUISE => "Cruise"

/-- Speed ranges per phase for ARRIVAL flights; the rows are commented
Holding, Approach, Landing, Taxi, Gate in the source. -/
def ARRIVAL_SPEED_LIMITS : List (Int × Int) :=
  [(400, 600), (240, 290), (30, 240), (15, 30), (0, 5)]

/-- Speed ranges per phase for DEPARTURE flights; the rows are commented
Gate, Taxi, Takeoff, Climb, Cruise in the source. -/
def DEPARTURE_SPEED_LIMITS : List (Int × Int) :=
  [(0, 5), (15, 30), (0, 290), (250, 463), (800, 900)]

def NUM_AIRCRAFTS : Nat := 6

/-- The subscript `table[i]` of C++: row `i` when the table has one, and
otherwise the content `past i` of the memory behind the table. -/
def read_row (table : List (Int × Int)) (past : Nat → Int × Int) (i : Nat) : Int × Int :=
  match table[i]? with
  | some row => row
  | none => past i

/-- The phase array `phases` that `flight_simulation` fills in for a direction. -/
def phases : FlightType → List Phase
  | .ARRIVAL => [HOLDING, APPROACH, LANDING, TAXI, GATE]
  | .DEPARTURE => [GATE, TAXI, TAKEOFF, CLIMB, CRUISE]

/-- The table `flight_simulation` and `radar_monitor` select for a direction. -/
def speed_limits (d : FlightType) : List (Int × Int) :=
  if d = ARRIVAL then ARRIVAL_SPEED_LIMITS else DEPARTURE_SPEED_LIMITS

/-! ## Aircraft, violation notices -/

/-- The struct `Aircraft` without its mutex. The two coordinates of `position`
only ever hold whole numbers (50, 100 + 70 i, steps of 20). -/
structure Aircraft where
  flight_number : String
  direction : FlightType
  type : AircraftType
  current_phase : Phase
  speed : Int
  is_active : Bool
  avn_issued : Bool
  position : Int × Int
  deriving DecidableEq, Repr

/-- One airspace violation notice as `issue_avn` prints it and appends it to
the log file: flight, class, reason and fine. -/
structure Avn where
  flight_number : String
  type : AircraftType
  reason : String
  fine : Int
  deriving DecidableEq, Repr

/-- Priority values: lower means higher priority. -/
def get_priority (type : AircraftType) : Int :=
  if type = EMERGENCY then 0
  else if type = COMMERCIAL then 1
  else if type = CARGO then 2
  else 3

/-- The fine `issue_avn` computes from the class of the aircraft. -/
def avn_fine (type : AircraftType) : Int :=
  if type = COMMERCIAL then FINE_COMMERCIAL
  else if type = CARGO then FINE_CARGO
  else FINE_EMERGENCY

/-- The function `issue_avn`: the aircraft afterwards and the notices emitted. -/
def issue_avn (aircraft : Aircraft) (reason : String) : Aircraft × List Avn :=
  if !aircraft.avn_issued then
    let fine := avn_fine aircraft.type
    ({ aircraft with avn_issued := true },
      [{ flight_number := aircraft.flight_number, type := aircraft.type,
         reason := reason, fine := fine }])
  else (aircraft, [])

/-- The band `radar_monitor` reads for an aircraft in a phase: the row of the
direction's table at the numeric value of the phase. -/
def radar_band (past : Nat → Int × Int) (d : FlightType) (phase : Phase) : Int × Int :=
  read_row (speed_limits d) past phase.toNat

/-- One check of `radar_monitor` on one aircraft (the body of its inner loop,
run under the aircraft's lock). -/
def radar_check (past : Nat → Int × Int) (a : Aircraft) : Aircraft × List Avn :=
  if !a.avn_issued && a.is_active then
    let phase := a.current_phase
    let speed := a.speed
    let band := radar_band past a.direction phase
    if speed < band.1 ∨ speed > band.2 then
      issue_avn a ("Speed violation in phase " ++ PHASE_NAMES phase)
    else (a, [])
  else (a, [])

/-! ## Runway pool -/

/-- The runway pool: the array `runwaysInUse` and, for each of the three
runways, whether its mutex is locked. -/
structure Pool where
  runwaysInUse : Fin 3 → Bool
  locked : Fin 3 → Bool

/-- The pool at program start: no flag set, every mutex unlocked. -/
def Pool.start : Pool :=
  { runwaysInUse := fun _ => false, locked := fun _ => false }

/-- The inner `for` loop of `request_runway` over the runways still to be
visited: the first runway whose flag is clear and whose `trylock` succeeds is
flagged, locked and returned. -/
def scan_runways (p : Pool) : List (Fin 3) → Option (Fin 3) × Pool
  | [] => (none, p)
  | i :: rest =>
    if !p.runwaysInUse i && !p.locked i then
      (some i, { runwaysInUse := Function.update p.runwaysInUse i true,
                 locked := Function.update p.locked i true })
    else scan_runways p rest

/-- One grant-scan: the body of the retry loop of `request_runway` between
taking and dropping `runway_queue_lock`, for i = 0, 1, 2. -/
def grant_scan (p : Pool) : Option (Fin 3) × Pool :=
  scan_runways p [0, 1, 2]

/-- The retry delay `request_runway` computes from the priority. -/
def wait_time (my_priority : Int) : Int :=
  if my_priority = 0 then 1 else 2 + my_priority

/-- What a call of `request_runway` leaves behind: the handle returned (`none`
for `nullptr`), the pool, and the seconds slept between polls. -/
structure Request where
  handle : Option (Fin 3)
  pool : Pool
  slept : Int

/-- The retry loop of `request_runway` from its poll number `k` on.
`running k` is the value of `simulation_running` read by the test of poll `k`,
`others k` is what the other threads do to the pool during the sleep after
poll `k`. The result is `none` when `fuel` sleeps did not suffice. -/
def request_runway_poll (type : AircraftType) (running : Nat → Bool)
    (others : Nat → Pool → Pool) : Nat → Nat → Int → Pool → Option Request
  | fuel, k, slept, p =>
    if running k then
      match grant_scan p with
      | (some i, p1) => some { handle := some i, pool := p1, slept := slept }
      | (none, p1) =>
        match fuel with
        | 0 => none
        | fuel + 1 =>
          request_runway_poll type running others fuel (k + 1)
            (slept + wait_time (get_priority type)) (others k p1)
    else some { handle := none, pool := p, slept := slept }

/-- The function `request_runway`, polling from poll 0 on. -/
def request_runway (type : AircraftType) (running : Nat → Bool)
    (others : Nat → Pool → Pool) (fuel : Nat) (p : Pool) : Option Request :=
  request_runway_poll type running others fuel 0 0 p

/-- The function `release_runway`: clear the flag, unlock the mutex. -/
def release_runway (runway : Fin 3) (p : Pool) : Pool :=
  { runwaysInUse := Function.update p.runwaysInUse runway false,
    locked := Function.update p.locked runway false }

/-- The pool together with the threads that hold a handle to each runway: a
thread holds runway i from the grant-scan that returned it until it releases it. -/
structure Tower where
  pool : Pool
  holders : Fin 3 → List Nat

/-- The tower at program start. -/
def Tower.start : Tower :=
  { pool := Pool.start, holders := fun _ => [] }

/-- A call on the pool by thread `me`. -/
inductive PoolCall where
  | scan (me : Nat)
  | release (me : Nat) (runway : Fin 3)
  deriving DecidableEq, Repr

/-- The effect of one call; a release of a runway by a thread that does not
hold it is not a call of the program and gives `none`. -/
def Tower.call (t : Tower) : PoolCall → Option Tower
  | .scan me =>
    match grant_scan t.pool with
    | (some i, p) =>
      some { pool := p, holders := Function.update t.holders i (me :: t.holders i) }
    | (none, p) => some { pool := p, holders := t.holders }
  | .release me runway =>
    if me ∈ t.holders runway then
      some { pool := release_runway runway t.pool,
             holders := Function.update t.holders runway ((t.holders runway).erase me) }
    else none

/-- A sequence of calls, one after the other. -/
def Tower.calls (t : Tower) : List PoolCall → Option Tower
  | [] => some t
  | c :: rest =>
    match t.call c with
    | some t1 => t1.calls rest
    | none => none

/-! ## The flight thread -/

/-- The locked block at the head of an iteration of `flight_simulation`:
set the phase `ph = phases[i]`, then draw the speed from row `i` with the
random number `r`. -/
def enter_phase (past : Nat → Int × Int) (i : Nat) (ph : Phase) (r : Nat)
    (a : Aircraft) : Aircraft :=
  let band := read_row (speed_limits a.direction) past i
  { a with current_phase := ph,
           speed := band.1 + (r : Int) % (band.2 - band.1 + 20) }

/-- The locked block at the foot of an iteration: move forward. -/
def advance_position (a : Aircraft) : Aircraft :=
  { a with position := (a.position.1 + 20, a.position.2) }

/-- The locked block behind the loop: the aircraft is no longer active. -/
def deactivate (a : Aircraft) : Aircraft :=
  { a with is_active := false }

/-- Whether the phase needs a runway: LANDING of an arrival, TAKEOFF of a departure. -/
def needs_runway (d : FlightType) (ph : Phase) : Bool :=
  (d = ARRIVAL && ph = LANDING) || (d = DEPARTURE && ph = TAKEOFF)

/-- What a flight thread reads from the variables it shares with other
threads and from `rand()`. -/
structure World where
  loop_running : Nat → Bool
  poll_running : Nat → Bool
  others : Nat → Pool → Pool
  rnd : Nat → Nat

/-- The state of a flight thread: its aircraft, the pool, the record of the
values `current_phase` has been given so far, each read back from the aircraft
right after the locked block that assigns it, and whether the thread is still
going (`false` once a runway request ran out of fuel while polling). -/
structure Flight where
  aircraft : Aircraft
  pool : Pool
  assigned : List Phase
  going : Bool

/-- The `for` loop of `flight_simulation` over the remaining pairs
(i, phases[i]). `loop_running i` is `simulation_running` as the loop test
reads it before iteration i. Between the grant of a runway and its release
three seconds later the pool is followed as this thread alone changes it. -/
def flight_loop (past : Nat → Int × Int) (w : World) (fuel : Nat) :
    List (Nat × Phase) → Flight → Flight
  | [], s => s
  | (i, ph) :: rest, s =>
    if w.loop_running i then
      let a1 := enter_phase past i ph (w.rnd i) s.aircraft
      if needs_runway a1.direction ph then
        match request_runway a1.type w.poll_running w.others fuel s.pool with
        | none =>
          { aircraft := a1, pool := s.pool, assigned := s.assigned ++ [a1.current_phase], going := false }
        | some req =>
          let p1 :=
            match req.handle with
            | some assigned_runway => release_runway assigned_runway req.pool
            | none => req.pool
          flight_loop past w fuel rest
            { aircraft := advance_position a1, pool := p1,
              assigned := s.assigned ++ [a1.current_phase], going := true }
      else
        flight_loop past w fuel rest
          { aircraft := advance_position a1, pool := s.pool,
            assigned := s.assigned ++ [a1.current_phase], going := true }
    else s

/-- The function `flight_simulation`: the loop over the five phases of the
direction, then the deactivation (reached only when the loop ended). -/
def flight_simulation (past : Nat → Int × Int) (w : World) (fuel : Nat)
    (a : Aircraft) (p : Pool) : Flight :=
  let s := flight_loop past w fuel (phases a.direction).enum
    { aircraft := a, pool := p, assigned := [], going := true }
  if s.going then { s with aircraft := deactivate s.aircraft } else s

/-! ## Steps on one aircraft -/

/-- A step that touches one aircraft: a block of its flight thread, a check
by the radar, or a call of `issue_avn`. -/
inductive Step where
  | enter (i : Nat) (ph : Phase) (r : Nat)
  | advance
  | deactivate
  | radar
  | issue (reason : String)
  deriving DecidableEq, Repr

/-- The effect of one step: the aircraft afterwards and the notices emitted. -/
def Step.run (past : Nat → Int × Int) (a : Aircraft) : Step → Aircraft × List Avn
  | .enter i ph r => (enter_phase past i ph r a, [])
  | .advance => (advance_position a, [])
  | .deactivate => (AirControlX.deactivate a, [])
  | .radar => radar_check past a
  | .issue reason => issue_avn a reason

/-- A sequence of steps: the aircraft afterwards and all notices emitted, in order. -/
def run_steps (past : Nat → Int × Int) (a : Aircraft) : List Step → Aircraft × List Avn
  | [] => (a, [])
  | s :: rest =>
    let r1 := s.run past a
    let r2 := run_steps past r1.1 rest
    (r2.1, r1.2 ++ r2.2)

/-! ## The roster of `main` -/

def flight_ids : List String := ["PK303", "FX101", "ED220", "AF001", "BD321", "AK911"]

def types : List AircraftType := [COMMERCIAL, CARGO, COMMERCIAL, EMERGENCY, CARGO, EMERGENCY]

def directions : List FlightType := [ARRIVAL, ARRIVAL, DEPARTURE, DEPARTURE, ARRIVAL, DEPARTURE]

/-- The body of the initialization loop of `main` for aircraft `i`. -/
def init_aircraft (i : Nat) (id : String) (ty : AircraftType) (d : FlightType) : Aircraft :=
  { flight_number := id, type := ty, direction := d, current_phase := GATE, speed := 0,
    is_active := true, avn_issued := false, position := (50, 100 + 70 * (i : Int)) }

/-- The array `aircrafts` behind the initialization loop of `main`. -/
def aircrafts : List Aircraft :=
  (flight_ids.zip (types.zip directions)).enum.map
    fun x => init_aircraft x.1 x.2.1 x.2.2.1 x.2.2.2

/-! ## Reference notions used by the theorems -/

/-- The legal band of a phase of a direction: the row of the direction's table
at the position the phase has in the direction's sequence `phases`, which is
the row `flight_simulation` draws the speed of that phase from. -/
def legal_band (d : FlightType) (p : Phase) : Option (Int × Int) :=
  (speed_limits d)[(phases d).indexOf p]?

/-- An active aircraft without a notice, in the given direction, class, phase
and speed. -/
def entity (d : FlightType) (ty : AircraftType) (ph : Phase) (s : Int) : Aircraft :=
  { flight_number := "PK303", direction := d, type := ty, current_phase := ph, speed := s,
    is_active := true, avn_issued := false, position := (50, 100) }

/-- A world in which shutdown is never signalled, the other threads leave the
pool alone and `rand()` returns 7 every time. -/
def calm : World :=
  { loop_running := fun _ => true, poll_running := fun _ => true,
    others := fun _ p => p, rnd := fun _ => 7 }

/-- Memory behind the tables that holds zeros. -/
def zeros : Nat → Int × Int := fun _ => (0, 0)

/-- A pool in which every runway is flagged and locked. -/
def Pool.full : Pool :=
  { runwaysInUse := fun _ => true, locked := fun _ => true }

/-- Flags, locks and holders agree on every runway: the mutex is locked
exactly when the flag is set, and the runway has one holder when the flag is
set and none otherwise. -/
def Tower.consistent (t : Tower) : Prop :=
  ∀ i, t.pool.locked i = t.pool.runwaysInUse i ∧
    (t.holders i).length = if t.pool.runwaysInUse i then 1 else 0

theorem issue_avn_issued (a : Aircraft) (reason : String) (h : a.avn_issued = true) :
    issue_avn a reason = (a, []) := by
  simp [issue_avn, h]

theorem issue_avn_fresh (a : Aircraft) (reason : String) (h : a.avn_issued = false) :
    issue_avn a reason =
      ({ a with avn_issued := true },
        [{ flight_number := a.flight_number, type := a.type, reason := reason,
           fine := avn_fine a.type }]) := by
  simp [issue_avn, h]

theorem radar_check_issued (past : Nat → Int × Int) (a : Aircraft) (h : a.avn_issued = true) :
    radar_check past a = (a, []) := by
  simp [radar_check, h]

theorem radar_check_inactive (past : Nat → Int × Int) (a : Aircraft) (h : a.is_active = false) :
    radar_check past a = (a, []) := by
  simp [radar_check, h]

/-- For an arrival the row the radar reads is the legal band of the phase. -/
theorem radar_band_arrival (past : Nat → Int × Int) (p : Phase) (h : p ∈ phases ARRIVAL) :
    legal_band ARRIVAL p = some (radar_band past ARRIVAL p) := by
  simp only [phases, List.mem_cons, List.mem_singleton, List.not_mem_nil, or_false] at h
  rcases h with h | h | h | h | h <;> subst h <;> rfl

/-- For an arrival in a phase of its sequence the radar issues a notice
exactly when the speed is outside the legal band of the phase. -/
theorem radar_check_arrival_iff (past : Nat → Int × Int) (ty : AircraftType) (p : Phase)
    (s : Int) (h : p ∈ phases ARRIVAL) :
    (radar_check past (entity ARRIVAL ty p s)).2 ≠ [] ↔
      ∃ band, legal_band ARRIVAL p = some band ∧ (s < band.1 ∨ s > band.2) := by
  rw [radar_band_arrival past p h]
  simp only [Option.some.injEq, exists_eq_left']
  simp only [radar_check, entity, Bool.not_false, Bool.and_self, if_true]
  split_ifs with hb
  · simp [issue_avn, hb]
  · simp [hb]

/-- A step on an aircraft that already has its notice keeps the flag and emits nothing. -/
theorem step_issued (past : Nat → Int × Int) (a : Aircraft) (s : Step)
    (h : a.avn_issued = true) :
    (s.run past a).1.avn_issued = true ∧ (s.run past a).2 = [] := by
  cases s with
  | enter i ph r => exact ⟨h, rfl⟩
  | advance => exact ⟨h, rfl⟩
  | deactivate => exact ⟨h, rfl⟩
  | radar => simp [Step.run, radar_check_issued past a h, h]
  | issue reason => simp [Step.run, issue_avn_issued a reason h, h]

/-- A step emits at most one notice, and one that emits a notice sets the flag. -/
theorem step_fresh (past : Nat → Int × Int) (a : Aircraft) (s : Step) :
    (s.run past a).2 = [] ∨
      ((s.run past a).2.length = 1 ∧ (s.run past a).1.avn_issued = true) := by
  cases s with
  | enter i ph r => exact Or.inl rfl
  | advance => exact Or.inl rfl
  | deactivate => exact Or.inl rfl
  | radar =>
    cases hi : a.avn_issued with
    | true => exact Or.inl (by simp [Step.run, radar_check_issued past a hi])
    | false =>
      simp only [Step.run, radar_check]
      split_ifs
      · right; simp [issue_avn_fresh a _ hi]
      · left; rfl
      · left; rfl
  | issue reason =>
    cases hi : a.avn_issued with
    | true => exact Or.inl (by simp [Step.run, issue_avn_issued a reason hi])
    | false => right; simp [Step.run, issue_avn_fresh a reason hi]

/-- A step other than a direct `issue_avn` call on an inactive aircraft emits
nothing and leaves it inactive. -/
theorem step_inactive (past : Nat → Int × Int) (a : Aircraft) (s : Step)
    (h : a.is_active = false) (hs : ∀ reason, s ≠ Step.issue reason) :
    (s.run past a).1.is_active = false ∧ (s.run past a).2 = [] := by
  cases s with
  | enter i ph r => exact ⟨h, rfl⟩
  | advance => exact ⟨h, rfl⟩
  | deactivate => exact ⟨rfl, rfl⟩
  | radar => simp [Step.run, radar_check_inactive past a h, h]
  | issue reason => exact absurd rfl (hs reason)

theorem run_steps_append (past : Nat → Int × Int) (a : Aircraft) (s1 s2 : List Step) :
    run_steps past a (s1 ++ s2) =
      ((run_steps past (run_steps past a s1).1 s2).1,
        (run_steps past a s1).2 ++ (run_steps past (run_steps past a s1).1 s2).2) := by
  induction s1 generalizing a with
  | nil => simp [run_steps]
  | cons s rest ih => simp [run_steps, ih, List.append_assoc]

theorem run_steps_issued (past : Nat → Int × Int) (a : Aircraft) (steps : List Step)
    (h : a.avn_issued = true) :
    (run_steps past a steps).1.avn_issued = true ∧ (run_steps past a steps).2 = [] := by
  induction steps generalizing a with
  | nil => exact ⟨h, rfl⟩
  | cons s rest ih =>
    obtain ⟨h1, h2⟩ := step_issued past a s h
    obtain ⟨h3, h4⟩ := ih (s.run past a).1 h1
    exact ⟨h3, by simp [run_steps, h2, h4]⟩

theorem run_steps_length (past : Nat → Int × Int) (a : Aircraft) (steps : List Step) :
    (run_steps past a steps).2.length ≤ 1 := by
  induction steps generalizing a with
  | nil => simp [run_steps]
  | cons s rest ih =>
    rcases step_fresh past a s with h | ⟨h1, h2⟩
    · simpa [run_steps, h] using ih (s.run past a).1
    · have h3 := (run_steps_issued past (s.run past a).1 rest h2).2
      simp [run_steps, h3, h1]

theorem run_steps_inactive (past : Nat → Int × Int) (a : Aircraft) (steps : List Step)
    (h : a.is_active = false) (hs : ∀ reason, Step.issue reason ∉ steps) :
    (run_steps past a steps).1.is_active = false ∧ (run_steps past a steps).2 = [] := by
  induction steps generalizing a with
  | nil => exact ⟨h, rfl⟩
  | cons s rest ih =>
    have hs1 : ∀ reason, s ≠ Step.issue reason := fun reason e =>
      hs reason (by simp [e])
    have hs2 : ∀ reason, Step.issue reason ∉ rest := fun reason m =>
      hs reason (List.mem_cons_of_mem _ m)
    obtain ⟨h1, h2⟩ := step_inactive past a s h hs1
    obtain ⟨h3, h4⟩ := ih (s.run past a).1 h1 hs2
    exact ⟨h3, by simp [run_steps, h2, h4]⟩

/-! ## The radar and the notices -/

/-- C1, evaluated on the code: for a DEPARTURE aircraft the radar reads the
row at the numeric value of the phase, not the row at the position of the
phase in the departure sequence. ED220, a departure of the roster, enters GATE
in the first iteration of its flight with random number 3 and gets speed 3,
inside the legal band (0, 5) of GATE; the radar compares with row 4,
(800, 900), and issues a notice. In TAXI the legal band is (15, 30), yet a
speed of 300 outside it draws no notice, because the radar compares with
row 3, (250, 463). -/
theorem C1_radar_reads_row_at_enum_value (past : Nat → Int × Int) :
    legal_band DEPARTURE GATE = some (0, 5) ∧
    radar_band past DEPARTURE GATE = (800, 900) ∧
    init_aircraft 2 "ED220" COMMERCIAL DEPARTURE ∈ aircrafts ∧
    (enter_phase past 0 GATE 3 (init_aircraft 2 "ED220" COMMERCIAL DEPARTURE)).speed = 3 ∧
    (radar_check past
        (enter_phase past 0 GATE 3 (init_aircraft 2 "ED220" COMMERCIAL DEPARTURE))).2 =
      [{ flight_number := "ED220", type := COMMERCIAL,
         reason := "Speed violation in phase Gate", fine := 5000 }] ∧
    legal_band DEPARTURE TAXI = some (15, 30) ∧
    radar_band past DEPARTURE TAXI = (250, 463) ∧
    (radar_check past (entity DEPARTURE COMMERCIAL TAXI 300)).2 = [] :=
  ⟨rfl, rfl, by simp [aircrafts, flight_ids, types, directions, List.enum, List.enumFrom],
    by simp [enter_phase, init_aircraft, read_row, speed_limits, DEPARTURE_SPEED_LIMITS],
    by simp [radar_check, enter_phase, init_aircraft, radar_band, read_row, speed_limits,
      DEPARTURE_SPEED_LIMITS, Phase.toNat, issue_avn, avn_fine, FINE_COMMERCIAL, PHASE_NAMES],
    rfl, rfl, rfl⟩

/-- C2: `avn_issued` is monotone along every sequence of steps (flight
blocks, radar checks, `issue_avn` calls): once it is true after a part of the
run it is true after every continuation; `issue_avn` on an aircraft whose flag
is set emits nothing and returns the aircraft as it was; the notices emitted
over a whole run are at most one. An arrival at 650 in HOLDING gets one notice
naming Holding, and a later out-of-band speed (300 in APPROACH) gets none. -/
theorem C2_avn_issued_monotone_at_most_one_notice (past : Nat → Int × Int) (a : Aircraft)
    (s1 s2 : List Step) (reason : String) :
    ((run_steps past a s1).1.avn_issued = true →
      (run_steps past a (s1 ++ s2)).1.avn_issued = true ∧
      (run_steps past a (s1 ++ s2)).2 = (run_steps past a s1).2) ∧
    (a.avn_issued = true → issue_avn a reason = (a, [])) ∧
    (run_steps past a s1).2.length ≤ 1 ∧
    (run_steps past (entity ARRIVAL COMMERCIAL HOLDING 650)
        [Step.radar, Step.enter 1 APPROACH 60, Step.radar]).2.map Avn.reason =
      ["Speed violation in phase Holding"] ∧
    (run_steps past (entity ARRIVAL COMMERCIAL HOLDING 650)
        [Step.radar, Step.enter 1 APPROACH 60]).1.speed = 300 := by
  refine ⟨fun h => ?_, issue_avn_issued a reason, run_steps_length past a s1, rfl, rfl⟩
  obtain ⟨h1, h2⟩ := run_steps_issued past (run_steps past a s1).1 s2 h
  rw [run_steps_append]
  exact ⟨h1, by simp [h2]⟩

/-- C2 at a concrete run: PK303 gets its notice in HOLDING at 650 and keeps the
flag through a later phase and a second radar check. -/
theorem C2_avn_issued_monotone_witness :
    (run_steps zeros (entity ARRIVAL COMMERCIAL HOLDING 650) [Step.radar]).1.avn_issued = true ∧
    (run_steps zeros (entity ARRIVAL COMMERCIAL HOLDING 650)
        ([Step.radar] ++ [Step.enter 1 APPROACH 60, Step.radar])).1.avn_issued = true ∧
    (run_steps zeros (entity ARRIVAL COMMERCIAL HOLDING 650)
        ([Step.radar] ++ [Step.enter 1 APPROACH 60, Step.radar])).2.length = 1 :=
  ⟨rfl,
    ((C2_avn_issued_monotone_at_most_one_notice zeros (entity ARRIVAL COMMERCIAL HOLDING 650)
      [Step.radar] [Step.enter 1 APPROACH 60, Step.radar] "again").1 rfl).1,
    rfl⟩

/-- C5: on an aircraft without a notice `issue_avn` emits one notice whose
fine is a function of the class alone, 5000 for COMMERCIAL, 3000 for CARGO and
1000 for EMERGENCY, so the fines fall in that order. -/
theorem C5_fine_by_class (a : Aircraft) (reason : String) (h : a.avn_issued = false) :
    (issue_avn a reason).2.map Avn.fine = [avn_fine a.type] ∧
    avn_fine COMMERCIAL = 5000 ∧ avn_fine CARGO = 3000 ∧ avn_fine EMERGENCY = 1000 ∧
    avn_fine COMMERCIAL > avn_fine CARGO ∧ avn_fine CARGO > avn_fine EMERGENCY := by
  refine ⟨by simp [issue_avn_fresh a reason h], rfl, rfl, rfl, by decide, by decide⟩

/-- C5 at a concrete aircraft: a cargo flight is fined 3000. -/
theorem C5_fine_by_class_witness :
    (entity ARRIVAL CARGO HOLDING 650).avn_issued = false ∧
    (issue_avn (entity ARRIVAL CARGO HOLDING 650) "Speed violation in phase Holding").2.map
      Avn.fine = [3000] :=
  ⟨rfl, (C5_fine_by_class (entity ARRIVAL CARGO HOLDING 650)
    "Speed violation in phase Holding" rfl).1⟩

/-- C8: a radar check on an aircraft that is not active emits nothing and
returns the aircraft unchanged, whatever its direction, phase, speed and flag;
no block of the flight thread sets `is_active` again, so along every sequence
of flight blocks and radar checks from an inactive aircraft no notice is ever
emitted and the aircraft stays inactive. -/
theorem C8_inactive_aircraft_never_flagged (past : Nat → Int × Int) (a : Aircraft)
    (steps : List Step) (h : a.is_active = false)
    (hs : ∀ reason, Step.issue reason ∉ steps) :
    radar_check past a = (a, []) ∧
    (run_steps past a steps).2 = [] ∧
    (run_steps past a steps).1.is_active = false :=
  ⟨radar_check_inactive past a h, (run_steps_inactive past a steps h hs).2,
    (run_steps_inactive past a steps h hs).1⟩

/-- C8 at a concrete run: a deactivated departure at GATE with speed 3, which
the radar would flag while active, is checked twice and draws no notice. -/
theorem C8_inactive_aircraft_never_flagged_witness :
    (deactivate (entity DEPARTURE EMERGENCY GATE 3)).is_active = false ∧
    (radar_check zeros (entity DEPARTURE EMERGENCY GATE 3)).2.length = 1 ∧
    radar_check zeros (deactivate (entity DEPARTURE EMERGENCY GATE 3)) =
      (deactivate (entity DEPARTURE EMERGENCY GATE 3), []) ∧
    (run_steps zeros (deactivate (entity DEPARTURE EMERGENCY GATE 3))
      [Step.radar, Step.advance, Step.radar]).2 = [] :=
  ⟨rfl, rfl,
    (C8_inactive_aircraft_never_flagged zeros (deactivate (entity DEPARTURE EMERGENCY GATE 3))
      [Step.radar, Step.advance, Step.radar] rfl (by simp)).1,
    (C8_inactive_aircraft_never_flagged zeros (deactivate (entity DEPARTURE EMERGENCY GATE 3))
      [Step.radar, Step.advance, Step.radar] rfl (by simp)).2.1⟩

/-! ## The runway pool -/

/-- The inner loop either grants nothing and leaves the pool as it was, or
grants a runway of the list whose flag was clear and whose mutex was free. -/
theorem scan_runways_cases (p : Pool) (l : List (Fin 3)) :
    scan_runways p l = (none, p) ∨
    ∃ i, i ∈ l ∧ p.runwaysInUse i = false ∧ p.locked i = false ∧
      scan_runways p l =
        (some i, { runwaysInUse := Function.update p.runwaysInUse i true,
                   locked := Function.update p.locked i true }) := by
  induction l with
  | nil => exact Or.inl rfl
  | cons i rest ih =>
    by_cases h : (!p.runwaysInUse i && !p.locked i) = true
    · right
      refine ⟨i, List.mem_cons_self _ _, ?_, ?_, ?_⟩
      · simp only [Bool.and_eq_true, Bool.not_eq_true'] at h; exact h.1
      · simp only [Bool.and_eq_true, Bool.not_eq_true'] at h; exact h.2
      · simp only [scan_runways, h, if_true]
    · rcases ih with h1 | ⟨j, hj, h2, h3, h4⟩
      · left; simp only [scan_runways, h, if_false, h1]; rfl
      · right
        exact ⟨j, List.mem_cons_of_mem _ hj, h2, h3, by simp only [scan_runways, h, h4]; rfl⟩

theorem grant_scan_flag_clear (p : Pool) (i : Fin 3) (h : (grant_scan p).1 = some i) :
    p.runwaysInUse i = false := by
  rcases scan_runways_cases p [0, 1, 2] with h1 | ⟨j, _, h2, _, h4⟩
  · simp [grant_scan, h1] at h
  · simp only [grant_scan, h4, Option.some.injEq] at h
    exact h ▸ h2

/-- A call by a thread keeps flags, locks and holders in agreement. -/
theorem call_consistent (t t1 : Tower) (c : PoolCall) (ht : t.consistent)
    (h : t.call c = some t1) : t1.consistent := by
  cases c with
  | scan me =>
    rcases scan_runways_cases t.pool [0, 1, 2] with h1 | ⟨j, _, h2, h3, h4⟩
    · simp only [Tower.call, grant_scan, h1, Option.some.injEq] at h
      subst h; exact ht
    · simp only [Tower.call, grant_scan, h4, Option.some.injEq] at h
      subst h
      intro i
      by_cases hij : i = j
      · subst hij
        have := (ht i).2
        simp [h2] at this
        simp [this]
      · simpa [Function.update_noteq hij] using ht i
  | release me runway =>
    simp only [Tower.call] at h
    split_ifs at h with hm
    simp only [Option.some.injEq] at h
    subst h
    intro i
    by_cases hij : i = runway
    · subst hij
      have h2 := (ht i).2
      cases hf : t.pool.runwaysInUse i with
      | false =>
        simp [hf] at h2
        simp [h2] at hm
      | true =>
        simp only [hf, if_true] at h2
        obtain ⟨x, hx⟩ := List.length_eq_one.mp h2
        simp [hx] at hm
        subst hm
        simp [release_runway, hx]
    · simpa [release_runway, Function.update_noteq hij] using ht i

theorem calls_consistent (t t1 : Tower) (cs : List PoolCall) (ht : t.consistent)
    (h : t.calls cs = some t1) : t1.consistent := by
  induction cs generalizing t with
  | nil => simp only [Tower.calls, Option.some.injEq] at h; exact h ▸ ht
  | cons c rest ih =>
    simp only [Tower.calls] at h
    cases hc : t.call c with
    | none => simp [hc] at h
    | some t2 =>
      simp only [hc] at h
      exact ih t2 (call_consistent t t2 c ht hc) h

theorem start_consistent : Tower.start.consistent := by
  intro i; simp [Tower.start, Pool.start]

/-- C3: in every state the pool reaches from the all-free start by grant-scans
of any threads and releases of a runway by a thread that holds it, every
runway has at most one holder, its flag in `runwaysInUse` is set exactly when
it has exactly one holder, which is exactly when its mutex is locked, and a
grant-scan grants only a runway whose flag is clear. -/
theorem C3_one_holder_per_runway (cs : List PoolCall) (t : Tower)
    (h : Tower.start.calls cs = some t) (i : Fin 3) :
    (t.holders i).length ≤ 1 ∧
    (t.pool.runwaysInUse i = true ↔ (t.holders i).length = 1) ∧
    (t.pool.runwaysInUse i = true ↔ t.pool.locked i = true) ∧
    (∀ j, (grant_scan t.pool).1 = some j → t.pool.runwaysInUse j = false) := by
  have hc := calls_consistent Tower.start t cs start_consistent h i
  refine ⟨?_, ?_, ?_, fun j => grant_scan_flag_clear t.pool j⟩
  · rw [hc.2]; split_ifs <;> simp
  · rw [hc.2]; cases t.pool.runwaysInUse i <;> simp
  · rw [hc.1]

/-- C3 at a concrete run: threads 1 and 2 are granted runways 0 and 1, thread 1
releases runway 0; runway 1 is then flagged with thread 2 as its one holder. -/
theorem C3_one_holder_per_runway_witness :
    ∃ t, Tower.start.calls [PoolCall.scan 1, PoolCall.scan 2, PoolCall.release 1 0] = some t ∧
      t.holders 1 = [2] ∧ t.holders 0 = [] ∧
      ((t.holders 1).length ≤ 1 ∧
       (t.pool.runwaysInUse 1 = true ↔ (t.holders 1).length = 1) ∧
       (t.pool.runwaysInUse 1 = true ↔ t.pool.locked 1 = true) ∧
       (∀ j, (grant_scan t.pool).1 = some j → t.pool.runwaysInUse j = false)) :=
  ⟨_, rfl, rfl, rfl,
    C3_one_holder_per_runway [PoolCall.scan 1, PoolCall.scan 2, PoolCall.release 1 0] _ rfl 1⟩

/-- C6: when the test at the head of the retry loop of `request_runway` reads
shutdown, at the first poll or at any later one, the call returns no handle on
the spot and the pool it leaves is the pool it found: no flag and no lock is
changed, nothing is granted. -/
theorem C6_no_grant_once_shutdown_is_read (type : AircraftType) (running : Nat → Bool)
    (others : Nat → Pool → Pool) (fuel k : Nat) (slept : Int) (p : Pool)
    (h : running k = false) :
    request_runway_poll type running others fuel k slept p =
      some { handle := none, pool := p, slept := slept } ∧
    (k = 0 → request_runway type running others fuel p =
      some { handle := none, pool := p, slept := 0 }) := by
  constructor
  · unfold request_runway_poll; simp [h]
  · intro hk; subst hk; unfold request_runway request_runway_poll; simp [h]

/-- C6 at a concrete call: a commercial flight asking the all-free pool after
shutdown gets no handle, and runway 0 stays free. -/
theorem C6_no_grant_once_shutdown_is_read_witness :
    (grant_scan Pool.start).1 = some 0 ∧
    (request_runway COMMERCIAL (fun _ => false) (fun _ p => p) 5 Pool.start).map
      (fun r => (r.handle, r.pool.runwaysInUse 0, r.pool.locked 0, r.slept)) =
      some (none, false, false, 0) :=
  ⟨by decide,
    by rw [(C6_no_grant_once_shutdown_is_read COMMERCIAL (fun _ => false) (fun _ p => p) 5 0 0
      Pool.start rfl).2 rfl]; rfl⟩

/-- C7: `get_priority` gives 0 to EMERGENCY, 1 to COMMERCIAL and 2 to CARGO;
the delay `request_runway` computes from it is 1, 3 and 4 seconds, strictly
longer for each lower priority and shortest for EMERGENCY; and a request that
is denied once and then reads shutdown has slept exactly that delay. -/
theorem C7_priority_and_retry_delay :
    get_priority EMERGENCY = 0 ∧ get_priority COMMERCIAL = 1 ∧ get_priority CARGO = 2 ∧
    wait_time (get_priority EMERGENCY) = 1 ∧
    wait_time (get_priority EMERGENCY) < wait_time (get_priority COMMERCIAL) ∧
    wait_time (get_priority COMMERCIAL) < wait_time (get_priority CARGO) ∧
    (∀ ty, wait_time (get_priority EMERGENCY) ≤ wait_time (get_priority ty)) ∧
    (∀ ty, (request_runway ty (fun k => k == 0) (fun _ p => p) 1 Pool.full).map Request.slept =
      some (wait_time (get_priority ty))) := by
  refine ⟨rfl, rfl, rfl, rfl, by decide, by decide, ?_, ?_⟩
  · intro ty; cases ty <;> decide
  · intro ty; cases ty <;> rfl

/-- C9, as stated, fails: the roster holds an aircraft (PK303, an arrival)
whose phase after initialization is not the first phase of its sequence. -/
theorem C9_arrivals_are_not_set_to_holding :
    ¬ ∀ a ∈ aircrafts, a.is_active = true ∧ a.avn_issued = false ∧
        (phases a.direction).head? = some a.current_phase := by
  intro h
  have := h (init_aircraft 0 "PK303" COMMERCIAL ARRIVAL)
    (by simp [aircrafts, flight_ids, types, directions, List.enum, List.enumFrom])
  simp [init_aircraft, phases] at this

/-- C9, amended: after the initialization loop the roster has NUM_AIRCRAFTS
aircraft and each of them is active, has no notice and is in phase GATE, which
is the first phase of the sequence of a departure and the last phase of the
sequence of an arrival. -/
theorem C9_roster_is_set_to_gate (a : Aircraft) (h : a ∈ aircrafts) :
    aircrafts.length = NUM_AIRCRAFTS ∧
    a.is_active = true ∧ a.avn_issued = false ∧ a.current_phase = GATE ∧
    (a.direction = DEPARTURE → (phases a.direction).head? = some a.current_phase) ∧
    (a.direction = ARRIVAL → (phases a.direction).getLast? = some a.current_phase) := by
  simp only [aircrafts, flight_ids, types, directions, List.enum, List.enumFrom,
    List.zip_cons_cons, List.zip_nil_right, List.map_cons, List.map_nil, List.mem_cons,
    List.mem_singleton, List.not_mem_nil, or_false] at h
  rcases h with h | h | h | h | h | h <;> subst h <;>
    simp [init_aircraft, phases, aircrafts, flight_ids, types, directions, NUM_AIRCRAFTS]

/-- C9 amended, at a concrete aircraft: ED220, a commercial departure. -/
theorem C9_roster_is_set_to_gate_witness :
    init_aircraft 2 "ED220" COMMERCIAL DEPARTURE ∈ aircrafts ∧
    (init_aircraft 2 "ED220" COMMERCIAL DEPARTURE).current_phase = GATE ∧
    (init_aircraft 2 "ED220" COMMERCIAL DEPARTURE).is_active = true :=
  ⟨by simp [aircrafts, flight_ids, types, directions, List.enum, List.enumFrom],
    (C9_roster_is_set_to_gate (init_aircraft 2 "ED220" COMMERCIAL DEPARTURE)
      (by simp [aircrafts, flight_ids, types, directions, List.enum, List.enumFrom])).2.2.2.1,
    (C9_roster_is_set_to_gate (init_aircraft 2 "ED220" COMMERCIAL DEPARTURE)
      (by simp [aircrafts, flight_ids, types, directions, List.enum, List.enumFrom])).2.1⟩

/-! ## The speed drawn for a phase -/

/-- Every row of the two speed-limit tables is one of the ten bands below. -/
theorem speed_limits_row (d : FlightType) (i : Nat) (mn mx : Int)
    (h : (speed_limits d)[i]? = some (mn, mx)) :
    i < 5 ∧ 0 ≤ mn ∧ mn ≤ mx ∧ mx ≤ 900 := by
  have hi : i < 5 := by
    rcases Nat.lt_or_ge i 5 with h5 | h5
    · exact h5
    · have hlen : (speed_limits d).length ≤ i := by
        cases d <;> simpa [speed_limits, ARRIVAL_SPEED_LIMITS, DEPARTURE_SPEED_LIMITS] using h5
      rw [List.getElem?_eq_none hlen] at h
      exact absurd h (by simp)
  refine ⟨hi, ?_⟩
  cases d <;> interval_cases i <;>
    simp [speed_limits, ARRIVAL_SPEED_LIMITS, DEPARTURE_SPEED_LIMITS] at h <;>
    obtain ⟨rfl, rfl⟩ := h <;> decide

/-- The speed `enter_phase` writes is the minimum of row `i` plus the random
number reduced modulo the width of the row plus 20. -/
theorem enter_phase_speed (past : Nat → Int × Int) (a : Aircraft) (i : Nat) (ph : Phase)
    (r : Nat) (mn mx : Int) (h : (speed_limits a.direction)[i]? = some (mn, mx)) :
    (enter_phase past i ph r a).speed = mn + (r : Int) % (mx - mn + 20) := by
  simp [enter_phase, read_row, h]

/-- C11: for each direction and each position i of its sequence, with
(min, max) the row i of the direction's table, the modulus max - min + 20 is
positive, the speed `flight_simulation` assigns for the random number r is
min + r mod (max - min + 20), it lies between min and max + 19, and every
whole number between min and max + 19 is the speed for some r that `rand()`
can return; the five positions 0..4 are exactly the rows the tables have. -/
theorem C11_sampled_speed_within_margin (past : Nat → Int × Int) (a : Aircraft) (i : Nat)
    (ph : Phase) (r : Nat) (mn mx : Int)
    (h : (speed_limits a.direction)[i]? = some (mn, mx)) :
    0 < mx - mn + 20 ∧
    (enter_phase past i ph r a).speed = mn + (r : Int) % (mx - mn + 20) ∧
    mn ≤ (enter_phase past i ph r a).speed ∧
    (enter_phase past i ph r a).speed ≤ mx + 19 ∧
    (∀ s : Int, mn ≤ s → s ≤ mx + 19 →
      ∃ r1 : Nat, r1 ≤ 32767 ∧ (enter_phase past i ph r1 a).speed = s) ∧
    (∀ (d : FlightType) (j : Nat), j < 5 ↔ ∃ row, (speed_limits d)[j]? = some row) := by
  obtain ⟨_, h0, h1, h2⟩ := speed_limits_row a.direction i mn mx h
  have hpos : 0 < mx - mn + 20 := by omega
  have hsp := enter_phase_speed past a i ph r mn mx h
  have hnn : 0 ≤ (r : Int) % (mx - mn + 20) := Int.emod_nonneg _ (by omega)
  have hlt : (r : Int) % (mx - mn + 20) < mx - mn + 20 := Int.emod_lt_of_pos _ hpos
  refine ⟨hpos, hsp, by omega, by omega, ?_, ?_⟩
  · intro s hs1 hs2
    obtain ⟨n, hn⟩ := Int.eq_ofNat_of_zero_le (show 0 ≤ s - mn by omega)
    refine ⟨n, by omega, ?_⟩
    rw [enter_phase_speed past a i ph n mn mx h]
    have hn1 : (n : Int) = s - mn := hn.symm
    rw [Int.emod_eq_of_lt (by omega) (by omega)]
    omega
  · intro d j
    constructor
    · intro hj
      cases d <;> interval_cases j <;>
        simp [speed_limits, ARRIVAL_SPEED_LIMITS, DEPARTURE_SPEED_LIMITS]
    · rintro ⟨⟨x, y⟩, hrow⟩
      exact (speed_limits_row d j x y hrow).1

/-- C11 at a concrete draw: in HOLDING (row 0 of the arrival table, 400 to
600) the random number 219 gives speed 619, the largest there is. -/
theorem C11_sampled_speed_within_margin_witness :
    (speed_limits (entity ARRIVAL COMMERCIAL GATE 0).direction)[0]? = some (400, 600) ∧
    (enter_phase zeros 0 HOLDING 219 (entity ARRIVAL COMMERCIAL GATE 0)).speed = 400 + 219 % 220 ∧
    (enter_phase zeros 0 HOLDING 219 (entity ARRIVAL COMMERCIAL GATE 0)).speed ≤ 600 + 19 :=
  ⟨rfl,
    (C11_sampled_speed_within_margin zeros (entity ARRIVAL COMMERCIAL GATE 0) 0 HOLDING 219
      400 600 rfl).2.1,
    (C11_sampled_speed_within_margin zeros (entity ARRIVAL COMMERCIAL GATE 0) 0 HOLDING 219
      400 600 rfl).2.2.2.1⟩

/-! ## The row the radar reads -/

/-- For an arrival, in GATE at the start and in every phase of its sequence,
the numeric value of the phase is a row of the arrival table. -/
theorem radar_index_arrival (p : Phase) (h : p ∈ GATE :: phases ARRIVAL) :
    p.toNat < (speed_limits ARRIVAL).length := by
  simp only [phases, List.mem_cons, List.mem_singleton, List.not_mem_nil, or_false] at h
  rcases h with h | h | h | h | h | h <;> subst h <;> decide

/-- C12, evaluated on the code: the radar subscripts the table of the
direction with the numeric value of the phase. The departure table has five
rows, and the departure phases TAKEOFF, CLIMB and CRUISE have the values 5, 6
and 7, so for them the radar reads behind the table: the band it compares with
is whatever the memory there holds. ED220, a departure of the roster, enters
TAKEOFF in the third iteration of its flight, with random number 100 at speed
100; whether the radar then issues a notice is decided by that memory. For
GATE and TAXI of a departure the index lies inside the table. -/
theorem C12_radar_reads_behind_departure_table (past : Nat → Int × Int) :
    (speed_limits DEPARTURE).length = 5 ∧
    phases DEPARTURE = [GATE, TAXI, TAKEOFF, CLIMB, CRUISE] ∧
    GATE.toNat = 4 ∧ TAXI.toNat = 3 ∧
    TAKEOFF.toNat = 5 ∧ CLIMB.toNat = 6 ∧ CRUISE.toNat = 7 ∧
    (speed_limits DEPARTURE)[TAKEOFF.toNat]? = none ∧
    (speed_limits DEPARTURE)[CLIMB.toNat]? = none ∧
    (speed_limits DEPARTURE)[CRUISE.toNat]? = none ∧
    radar_band past DEPARTURE TAKEOFF = past 5 ∧
    radar_band past DEPARTURE CLIMB = past 6 ∧
    radar_band past DEPARTURE CRUISE = past 7 ∧
    (flight_simulation past calm 0 (init_aircraft 2 "ED220" COMMERCIAL DEPARTURE)
      Pool.start).assigned = [GATE, TAXI, TAKEOFF, CLIMB, CRUISE] ∧
    (enter_phase past 2 TAKEOFF 100
      (init_aircraft 2 "ED220" COMMERCIAL DEPARTURE)).current_phase = TAKEOFF ∧
    (enter_phase past 2 TAKEOFF 100 (init_aircraft 2 "ED220" COMMERCIAL DEPARTURE)).speed = 100 ∧
    (radar_check zeros
      (enter_phase zeros 2 TAKEOFF 100 (init_aircraft 2 "ED220" COMMERCIAL DEPARTURE))).2.length
      = 1 ∧
    (radar_check (fun _ => (0, 290))
      (enter_phase (fun _ => (0, 290)) 2 TAKEOFF 100
        (init_aircraft 2 "ED220" COMMERCIAL DEPARTURE))).2 = [] := by
  refine ⟨rfl, rfl, rfl, rfl, rfl, rfl, rfl, rfl, rfl, rfl, rfl, rfl, rfl, rfl, rfl, ?_, ?_, ?_⟩
  · simp [enter_phase, init_aircraft, read_row, speed_limits, DEPARTURE_SPEED_LIMITS]
  · simp [radar_check, enter_phase, init_aircraft, radar_band, read_row, speed_limits,
      DEPARTURE_SPEED_LIMITS, Phase.toNat, issue_avn, zeros]
  · simp [radar_check, enter_phase, init_aircraft, radar_band, read_row, speed_limits,
      DEPARTURE_SPEED_LIMITS, Phase.toNat]

end AirControlX
